import Mathlib

/-!
Verification of the flow-log parser (`logParser.py`).

The script reads a flow log and a CSV lookup table, classifies each log
record by (destination port, protocol name), accumulates tag counts,
port/protocol counts and an untagged count, and writes a text report.
We embed the three functions `process_flow_logs`, `load_lookup_table`
and `write_output`, and the `main` wiring, as pure Lean functions over
file contents (a flow log is a list of lines; a CSV file is a list of
rows, each row a list of fields, as produced by `csv.reader`).
Failures that make the Python process `sys.exit(1)` are modelled as
`Except.error` with the message of the underlying exception.
-/

set_option autoImplicit false

/-- Association-list find: first entry whose key equals `k`, mirroring
Python `dict` lookup (our insert keeps keys unique, so first = only). -/
def assocFind {α β : Type} [DecidableEq α] : List (α × β) → α → Option β
  | [], _ => none
  | (k', v') :: rest, k => if k' = k then some v' else assocFind rest k

/-- Association-list update mirroring Python `d[k] = v`: an existing key
keeps its position and gets the new value; a new key is appended at the
end (insertion order). -/
def assocInsert {α β : Type} [DecidableEq α] : List (α × β) → α → β → List (α × β)
  | [], k, v => [(k, v)]
  | (k', v') :: rest, k, v =>
    if k' = k then (k', v) :: rest else (k', v') :: assocInsert rest k v

/-- Insertion-ordered dictionary, the shape of a Python `dict`:
entries in insertion order, keys unique. -/
structure PyDict (α β : Type) where
  entries : List (α × β)
  deriving DecidableEq

/-- Lookup in a `PyDict`, as Python `d[k]` / `k in d`. -/
def PyDict.get? {α β : Type} [DecidableEq α] (d : PyDict α β) (k : α) : Option β :=
  assocFind d.entries k

/-- Update a `PyDict`, as Python `d[k] = v`. -/
def PyDict.insert {α β : Type} [DecidableEq α] (d : PyDict α β) (k : α) (v : β) : PyDict α β :=
  ⟨assocInsert d.entries k v⟩

/-- The empty dictionary (`{}` / fresh `defaultdict(int)`). -/
def PyDict.empty {α β : Type} : PyDict α β := ⟨[]⟩

/-- Increment a counter dictionary at `k`, as `d[k] += 1` on a
`defaultdict(int)` (missing keys read as 0). -/
def PyDict.bump {α : Type} [DecidableEq α] (d : PyDict α Nat) (k : α) : PyDict α Nat :=
  d.insert k ((d.get? k).getD 0 + 1)

/-- Sum of the counter values of a dictionary. -/
def PyDict.sumValues {α : Type} (d : PyDict α Nat) : Nat :=
  (d.entries.map Prod.snd).sum

/-- Whitespace split of a character list, mirroring Python `str.split()`
with no argument: fields are maximal runs of non-whitespace characters;
leading, trailing and repeated whitespace produce no empty fields.
`acc` holds the characters of the current field, reversed. -/
def pySplitFields : List Char → List Char → List String
  | [], acc => if acc.isEmpty then [] else [String.mk acc.reverse]
  | c :: cs, acc =>
    if c.isWhitespace then
      if acc.isEmpty then pySplitFields cs [] else String.mk acc.reverse :: pySplitFields cs []
    else
      pySplitFields cs (c :: acc)

/-- Python `line.split()`. -/
def pySplit (s : String) : List String :=
  pySplitFields s.data []

/-- Python `str.lower()` (ASCII inputs, per the script's `encoding='ascii'`). -/
def pyLower (s : String) : String :=
  String.mk (s.data.map Char.toLower)

/-- Value of a nonempty all-digit character list; `none` otherwise. -/
def digitsVal (cs : List Char) : Option Nat :=
  if cs.isEmpty then none
  else
    cs.foldl
      (fun acc c =>
        match acc with
        | none => none
        | some n => if c.isDigit then some (n * 10 + (c.toNat - 48)) else none)
      (some 0)

/-- Python `int(s)` on ASCII input: optional surrounding whitespace, an
optional sign, then one or more digits; anything else raises
`ValueError`, modelled as `none`. -/
def pyInt? (s : String) : Option Int :=
  let cs := ((s.data.dropWhile Char.isWhitespace).reverse.dropWhile Char.isWhitespace).reverse
  match cs with
  | '-' :: rest => (digitsVal rest).map (fun n => -(n : Int))
  | '+' :: rest => (digitsVal rest).map (fun n => (n : Int))
  | rest => (digitsVal rest).map (fun n => (n : Int))

/-- Modelled from the spec: `CONSTANTS.protocol_mapping`, imported by
`logParser.py` from a `CONSTANTS` module that is not part of the given
sources. Per the spec (§4.1, §6) it is a static read-only mapping from
integer protocol numbers to lowercase protocol names covering at least
the IANA assignments TCP=6 and UDP=17; unrecognized numbers are simply
absent (the script then substitutes `""`). -/
def protocol_mapping : List (Int × String) :=
  [(1, "icmp"), (6, "tcp"), (17, "udp")]

/-- The three aggregates built by `process_flow_logs`. -/
structure FlowAggregates where
  tag_counts : PyDict String Nat
  port_protocol_counts : PyDict (String × String) Nat
  untagged_count : Nat
  deriving DecidableEq

/-- One iteration of the `for line in file` loop of `process_flow_logs`:
split the line on whitespace, require at least 14 fields, parse field 7
as an integer protocol number, resolve it through `protocol_mapping`
(default `""`), form the key `(dst_port, protocol.lower())`, count the
tag or the untagged record, and always count the port/protocol key. -/
def processLine (lookup : PyDict (String × String) String) (agg : FlowAggregates)
    (line : String) : Except String FlowAggregates :=
  let parts := pySplit line
  if parts.length < 14 then
    .error "Invalid row length in log file"
  else
    let dst_port := parts.getD 6 ""
    match pyInt? (parts.getD 7 "") with
    | none => .error "invalid literal for int() with base 10"
    | some n =>
      let protocol := (assocFind protocol_mapping n).getD ""
      let key := (dst_port, pyLower protocol)
      let agg' :=
        match lookup.get? key with
        | some tag => { agg with tag_counts := agg.tag_counts.bump tag }
        | none => { agg with untagged_count := agg.untagged_count + 1 }
      .ok { agg' with port_protocol_counts := agg'.port_protocol_counts.bump key }

/-- The whole `for line in file` loop: any raised error aborts the rest. -/
def processLines (lookup : PyDict (String × String) String) :
    List String → FlowAggregates → Except String FlowAggregates
  | [], agg => .ok agg
  | l :: ls, agg =>
    match processLine lookup agg l with
    | .error e => .error e
    | .ok agg' => processLines lookup ls agg'

/-- Embedding of `process_flow_logs(flow_log_file, lookup)`: the file is
its list of lines; `Except.error` models the `sys.exit(1)` paths. -/
def process_flow_logs (flow_log_lines : List String)
    (lookup : PyDict (String × String) String) : Except String FlowAggregates :=
  processLines lookup flow_log_lines ⟨PyDict.empty, PyDict.empty, 0⟩

/-- One iteration of the row loop of `load_lookup_table`: rows with
fewer than 3 fields raise the script's own exception; the 3-way
unpacking `dstport, protocol, tag = row` raises `ValueError` when the
row has more than 3 fields; exactly 3 fields insert
`(dstport, protocol.lower()) -> tag`. -/
def loadRow (lookup : PyDict (String × String) String) (row : List String) :
    Except String (PyDict (String × String) String) :=
  if row.length < 3 then
    .error "Invalid row length in log file"
  else
    match row with
    | [dstport, protocol, tag] => .ok (lookup.insert (dstport, pyLower protocol) tag)
    | _ => .error "too many values to unpack (expected 3)"

/-- The row loop of `load_lookup_table`. -/
def loadRows : List (List String) → PyDict (String × String) String →
    Except String (PyDict (String × String) String)
  | [], lookup => .ok lookup
  | row :: rest, lookup =>
    match loadRow lookup row with
    | .error e => .error e
    | .ok lookup' => loadRows rest lookup'

/-- Embedding of `load_lookup_table(lookup_file)`: the file is its list
of CSV rows (each row the list of its comma-separated fields, as
`csv.reader` yields them). `next(reader)` on an empty file raises
`StopIteration`, caught by the broad handler, so an empty file is an
error; otherwise the first row (header) is discarded unconditionally. -/
def load_lookup_table (rows : List (List String)) :
    Except String (PyDict (String × String) String) :=
  match rows with
  | [] => .error "StopIteration"
  | _header :: rest => loadRows rest PyDict.empty

/-- Embedding of `write_output`: the concatenation of the strings the
function writes to the output file, in order. -/
def write_output (tag_counts : PyDict String Nat)
    (port_protocol_counts : PyDict (String × String) Nat)
    (untagged_count : Nat) : String :=
  "Tag Counts:\n" ++ "Tag,Count\n"
  ++ String.join (tag_counts.entries.map (fun e => e.1 ++ "," ++ toString e.2 ++ "\n"))
  ++ ("Untagged," ++ toString untagged_count ++ "\n\n")
  ++ "Port/Protocol Combination Counts:\n" ++ "Port,Protocol,Count\n"
  ++ String.join (port_protocol_counts.entries.map
      (fun e => e.1.1 ++ "," ++ e.1.2 ++ "," ++ toString e.2 ++ "\n"))

/-- The report of `main` after argument validation: load the lookup
table, classify the log, and only then produce the output text.
An error in either stage is the corresponding `sys.exit(1)`. -/
def runPipeline (lookupRows : List (List String)) (logLines : List String) :
    Except String String :=
  match load_lookup_table lookupRows with
  | .error e => .error e
  | .ok lookup =>
    match process_flow_logs logLines lookup with
    | .error e => .error e
    | .ok agg => .ok (write_output agg.tag_counts agg.port_protocol_counts agg.untagged_count)

/-- Embedding of `main` after argument validation, tracking the output
file: `existing` is the content already at the output path (if any).
Returns the final content of the output path and the exit status.
`write_output` runs, overwriting the file, only when both the loader
and the classifier succeeded; any earlier `sys.exit(1)` leaves the
path untouched. -/
def mainRun (lookupRows : List (List String)) (logLines : List String)
    (existing : Option String) : Option String × Nat :=
  match runPipeline lookupRows logLines with
  | .error _ => (existing, 1)
  | .ok out => (some out, 0)

/-! ### Dictionary lemmas -/

theorem assocFind_assocInsert {α β : Type} [DecidableEq α] (l : List (α × β)) (k : α) (v : β)
    (k' : α) :
    assocFind (assocInsert l k v) k' = if k = k' then some v else assocFind l k' := by
  induction l with
  | nil => by_cases h : k = k' <;> simp [assocInsert, assocFind, h]
  | cons p rest ih =>
    obtain ⟨k₀, v₀⟩ := p
    by_cases h₀ : k₀ = k
    · subst h₀
      by_cases h : k₀ = k' <;> simp [assocInsert, assocFind, h]
    · by_cases h : k₀ = k'
      · subst h
        have hk : k ≠ k₀ := fun hh => h₀ hh.symm
        simp [assocInsert, assocFind, h₀, hk]
      · simp [assocInsert, assocFind, h₀, h, ih]

theorem PyDict.get?_insert {α β : Type} [DecidableEq α] (d : PyDict α β) (k : α) (v : β)
    (k' : α) :
    (d.insert k v).get? k' = if k = k' then some v else d.get? k' :=
  assocFind_assocInsert d.entries k v k'

theorem sum_assocInsert_succ {α : Type} [DecidableEq α] (l : List (α × Nat)) (k : α) :
    ((assocInsert l k ((assocFind l k).getD 0 + 1)).map Prod.snd).sum
      = (l.map Prod.snd).sum + 1 := by
  induction l with
  | nil => simp [assocInsert, assocFind]
  | cons p rest ih =>
    obtain ⟨k₀, v₀⟩ := p
    by_cases h : k₀ = k
    · subst h
      simp [assocInsert, assocFind]
      omega
    · simp [assocInsert, assocFind, h] at ih ⊢
      omega

theorem PyDict.sumValues_bump {α : Type} [DecidableEq α] (d : PyDict α Nat) (k : α) :
    (d.bump k).sumValues = d.sumValues + 1 :=
  sum_assocInsert_succ d.entries k

/-! ### Per-line behaviour of the classifier -/

@[simp] theorem PyDict.sumValues_empty {α : Type} :
    (PyDict.empty : PyDict α Nat).sumValues = 0 := rfl

theorem processLine_ok_inv (lookup : PyDict (String × String) String) (agg : FlowAggregates)
    (line : String) (agg' : FlowAggregates)
    (h : processLine lookup agg line = .ok agg') :
    agg'.tag_counts.sumValues + agg'.untagged_count
        = agg.tag_counts.sumValues + agg.untagged_count + 1
      ∧ agg'.port_protocol_counts.sumValues = agg.port_protocol_counts.sumValues + 1 := by
  simp only [processLine] at h
  split at h
  · exact absurd h (by simp)
  · split at h
    · exact absurd h (by simp)
    · split at h
      · cases h
        simp [PyDict.sumValues_bump]
        omega
      · cases h
        simp [PyDict.sumValues_bump]
        omega

theorem processLines_ok_inv (lookup : PyDict (String × String) String) (lines : List String) :
    ∀ (agg agg' : FlowAggregates), processLines lookup lines agg = .ok agg' →
      agg'.tag_counts.sumValues + agg'.untagged_count
          = agg.tag_counts.sumValues + agg.untagged_count + lines.length
        ∧ agg'.port_protocol_counts.sumValues
          = agg.port_protocol_counts.sumValues + lines.length := by
  induction lines with
  | nil =>
    intro agg agg' h
    cases h
    simp
  | cons l ls ih =>
    intro agg agg' h
    unfold processLines at h
    split at h
    · exact absurd h (by simp)
    · rename_i agg₁ hline
      obtain ⟨ht, hp⟩ := processLine_ok_inv lookup agg l agg₁ hline
      obtain ⟨ht', hp'⟩ := ih agg₁ agg' h
      constructor
      · simp [ht', ht]
        omega
      · simp [hp', hp]
        omega

/-- C1: whenever `process_flow_logs` succeeds, the sum of the tag counts
plus the untagged count equals the number of lines processed, which also
equals the sum of the port/protocol combination counts — every processed
line increments exactly one of (a tag counter, the untagged counter) and
always exactly one port/protocol counter. -/
theorem flow_counts_conservation (lines : List String)
    (lookup : PyDict (String × String) String) (agg : FlowAggregates)
    (h : process_flow_logs lines lookup = .ok agg) :
    agg.tag_counts.sumValues + agg.untagged_count = lines.length
      ∧ lines.length = agg.port_protocol_counts.sumValues := by
  obtain ⟨ht, hp⟩ := processLines_ok_inv lookup lines ⟨PyDict.empty, PyDict.empty, 0⟩ agg h
  constructor
  · simpa using ht
  · simp at hp
    omega

/-- Witness for C1 on a concrete two-line log: one tagged record and one
untagged record; both sums equal the line count 2. -/
theorem flow_counts_conservation_witness :
    process_flow_logs
        ["0 1 2 3 4 5 25 6 8 9 10 11 12 13", "0 1 2 3 4 5 53 17 8 9 10 11 12 13"]
        ⟨[(("25", "tcp"), "sv_P1")]⟩
      = .ok ⟨⟨[("sv_P1", 1)]⟩, ⟨[(("25", "tcp"), 1), (("53", "udp"), 1)]⟩, 1⟩
    ∧ PyDict.sumValues ⟨[("sv_P1", 1)]⟩ + 1 = 2
    ∧ 2 = PyDict.sumValues ⟨[(("25", "tcp"), 1), (("53", "udp"), 1)]⟩ := by
  have h : process_flow_logs
      ["0 1 2 3 4 5 25 6 8 9 10 11 12 13", "0 1 2 3 4 5 53 17 8 9 10 11 12 13"]
      ⟨[(("25", "tcp"), "sv_P1")]⟩
      = .ok ⟨⟨[("sv_P1", 1)]⟩, ⟨[(("25", "tcp"), 1), (("53", "udp"), 1)]⟩, 1⟩ := rfl
  have h2 := flow_counts_conservation
    ["0 1 2 3 4 5 25 6 8 9 10 11 12 13", "0 1 2 3 4 5 53 17 8 9 10 11 12 13"]
    ⟨[(("25", "tcp"), "sv_P1")]⟩
    ⟨⟨[("sv_P1", 1)]⟩, ⟨[(("25", "tcp"), 1), (("53", "udp"), 1)]⟩, 1⟩ h
  exact ⟨h, h2.1, h2.2⟩

theorem processLine_ok_fields (lookup : PyDict (String × String) String)
    (agg : FlowAggregates) (line : String) (agg' : FlowAggregates)
    (h : processLine lookup agg line = .ok agg') :
    14 ≤ (pySplit line).length ∧ (pyInt? ((pySplit line).getD 7 "")).isSome := by
  simp only [processLine] at h
  split at h
  · exact absurd h (by simp)
  · rename_i h14
    split at h
    · exact absurd h (by simp)
    · rename_i n hn
      exact ⟨Nat.le_of_not_lt h14, by rw [hn]; rfl⟩

theorem processLines_error_of_bad (lookup : PyDict (String × String) String)
    (lines : List String) (l : String) (hl : l ∈ lines)
    (hbad : (pySplit l).length < 14 ∨ pyInt? ((pySplit l).getD 7 "") = none) :
    ∀ agg, ∃ e, processLines lookup lines agg = .error e := by
  induction lines with
  | nil => cases hl
  | cons x xs ih =>
    intro agg
    rcases hx : processLine lookup agg x with e | agg'
    · exact ⟨e, by simp [processLines, hx]⟩
    · have hfields := processLine_ok_fields lookup agg x agg' hx
      have hlx : l ∈ xs := by
        rcases List.mem_cons.mp hl with hh | hh
        · subst hh
          rcases hbad with hb | hb
          · omega
          · rw [hb] at hfields
            simp at hfields
        · exact hh
      obtain ⟨e, he⟩ := ih hlx agg'
      exact ⟨e, by simp [processLines, hx, he]⟩

/-- C3: a flow log containing any line that splits into fewer than 14
whitespace-delimited fields makes `process_flow_logs` fail the whole
classification with an error (the modelled `sys.exit(1)`), no matter
which well-formed lines precede or follow it; no aggregates are
returned. -/
theorem short_line_aborts (lookup : PyDict (String × String) String)
    (lines : List String) (l : String) (hl : l ∈ lines)
    (hshort : (pySplit l).length < 14) :
    ∃ e, process_flow_logs lines lookup = .error e :=
  processLines_error_of_bad lookup lines l hl (Or.inl hshort) ⟨PyDict.empty, PyDict.empty, 0⟩

/-- Witness for C3: a 2-field line sits between two well-formed 14-field
lines and still aborts the whole run. -/
theorem short_line_aborts_witness :
    ("bad line" ∈ ["0 1 2 3 4 5 25 6 8 9 10 11 12 13", "bad line",
        "0 1 2 3 4 5 53 17 8 9 10 11 12 13"])
    ∧ (pySplit "bad line").length < 14
    ∧ ∃ e, process_flow_logs ["0 1 2 3 4 5 25 6 8 9 10 11 12 13", "bad line",
        "0 1 2 3 4 5 53 17 8 9 10 11 12 13"] ⟨[(("25", "tcp"), "sv_P1")]⟩ = .error e :=
  ⟨by simp, by decide,
    short_line_aborts ⟨[(("25", "tcp"), "sv_P1")]⟩ _ "bad line" (by simp) (by decide)⟩

/-- C7: a line with at least 14 fields whose field at index 7 is not
parseable as an integer makes `process_flow_logs` fail the entire
operation; it is never skipped or classified as untagged. -/
theorem bad_protocol_number_aborts (lookup : PyDict (String × String) String)
    (lines : List String) (l : String) (hl : l ∈ lines)
    (_hlen : 14 ≤ (pySplit l).length)
    (hbad : pyInt? ((pySplit l).getD 7 "") = none) :
    ∃ e, process_flow_logs lines lookup = .error e :=
  processLines_error_of_bad lookup lines l hl (Or.inr hbad) ⟨PyDict.empty, PyDict.empty, 0⟩

/-- Witness for C7: field index 7 is `"abc"` on a 14-field line. -/
theorem bad_protocol_number_aborts_witness :
    ("0 1 2 3 4 5 25 abc 8 9 10 11 12 13" ∈ ["0 1 2 3 4 5 25 abc 8 9 10 11 12 13"])
    ∧ 14 ≤ (pySplit "0 1 2 3 4 5 25 abc 8 9 10 11 12 13").length
    ∧ pyInt? ((pySplit "0 1 2 3 4 5 25 abc 8 9 10 11 12 13").getD 7 "") = none
    ∧ ∃ e, process_flow_logs ["0 1 2 3 4 5 25 abc 8 9 10 11 12 13"] PyDict.empty = .error e :=
  ⟨by simp, by decide, by decide,
    bad_protocol_number_aborts PyDict.empty _ "0 1 2 3 4 5 25 abc 8 9 10 11 12 13"
      (by simp) (by decide) (by decide)⟩

/-! ### Lookup-table loading -/

theorem loadRow_ok_inv (acc : PyDict (String × String) String) (row : List String)
    (acc' : PyDict (String × String) String) (h : loadRow acc row = .ok acc') :
    ∃ d p t, row = [d, p, t] ∧ acc' = acc.insert (d, pyLower p) t := by
  simp only [loadRow] at h
  split at h
  · exact absurd h (by simp)
  · split at h
    · cases h
      exact ⟨_, _, _, rfl, rfl⟩
    · exact absurd h (by simp)

theorem loadRows_error_of_long (rows : List (List String)) (r : List String)
    (hr : r ∈ rows) (hlen : 3 < r.length) :
    ∀ acc, ∃ e, loadRows rows acc = .error e := by
  induction rows with
  | nil => cases hr
  | cons x xs ih =>
    intro acc
    rcases hx : loadRow acc x with e | acc'
    · exact ⟨e, by simp [loadRows, hx]⟩
    · obtain ⟨d, p, t, hrow, -⟩ := loadRow_ok_inv acc x acc' hx
      have hrx : r ∈ xs := by
        rcases List.mem_cons.mp hr with hh | hh
        · subst hh
          rw [hrow] at hlen
          simp at hlen
        · exact hh
      obtain ⟨e, he⟩ := ih hrx acc'
      exact ⟨e, by simp [loadRows, hx, he]⟩

/-- C2 counterexample: a lookup row with a fourth field does not load
successfully — the 3-way unpacking raises `ValueError`, so the whole
load fails, contradicting the claim that such a row succeeds with the
extra field silently ignored. -/
theorem lookup_extra_fields_counterexample :
    load_lookup_table [["dstport", "protocol", "tag"], ["80", "tcp", "web", "extra"]]
      = .error "too many values to unpack (expected 3)" := rfl

/-- C2 amended: a lookup file containing a row (after the header) with
more than 3 comma-separated fields makes `load_lookup_table` fail the
entire load (the `ValueError` from `dstport, protocol, tag = row` is
caught by the broad handler and the process exits); such rows are never
accepted with the extra fields ignored. -/
theorem lookup_extra_fields_reject (hdr : List String) (rows : List (List String))
    (r : List String) (hr : r ∈ rows) (hlen : 3 < r.length) :
    ∃ e, load_lookup_table (hdr :: rows) = .error e := by
  obtain ⟨e, he⟩ := loadRows_error_of_long rows r hr hlen PyDict.empty
  exact ⟨e, by simp [load_lookup_table, he]⟩

/-- Witness for the amended C2: a 4-field row after a well-formed row. -/
theorem lookup_extra_fields_reject_witness :
    (["80", "tcp", "web", "extra"] ∈ [["25", "tcp", "mail"], ["80", "tcp", "web", "extra"]])
    ∧ 3 < (["80", "tcp", "web", "extra"] : List String).length
    ∧ ∃ e, load_lookup_table
        [["dstport", "protocol", "tag"], ["25", "tcp", "mail"], ["80", "tcp", "web", "extra"]]
        = .error e :=
  ⟨by simp, by simp,
    lookup_extra_fields_reject ["dstport", "protocol", "tag"] _ ["80", "tcp", "web", "extra"]
      (by simp) (by simp)⟩

/-- The tag of the last row (in file order) whose key
`(dstport, protocol.lower())` equals `k`; `none` when no row matches.
Rows that do not have exactly 3 fields carry no key (they would have
aborted the load anyway). -/
def lastTagFor : List (List String) → String × String → Option String
  | [], _ => none
  | row :: rest, k =>
    match lastTagFor rest k with
    | some t => some t
    | none =>
      match row with
      | [dstport, protocol, tag] =>
        if (dstport, pyLower protocol) = k then some tag else none
      | _ => none

theorem loadRows_get (rows : List (List String)) :
    ∀ (acc m : PyDict (String × String) String), loadRows rows acc = .ok m →
      ∀ k, m.get? k = (lastTagFor rows k).or (acc.get? k) := by
  induction rows with
  | nil =>
    intro acc m h k
    cases h
    simp [lastTagFor]
  | cons row rest ih =>
    intro acc m h k
    rcases hx : loadRow acc row with e | acc'
    · rw [loadRows, hx] at h
      exact absurd h (by simp)
    · rw [loadRows, hx] at h
      obtain ⟨d, p, t, hrow, hacc'⟩ := loadRow_ok_inv acc row acc' hx
      subst hrow
      subst hacc'
      have hm := ih _ m h k
      rcases hlt : lastTagFor rest k with - | t'
      · rw [hlt] at hm
        simp only [Option.none_or] at hm
        rw [hm, PyDict.get?_insert]
        by_cases hk : (d, pyLower p) = k
        · simp [lastTagFor, hlt, hk]
        · simp [lastTagFor, hlt, hk]
      · rw [hlt] at hm
        simp only [Option.or] at hm
        simp [lastTagFor, hlt, hm]

/-- C5: when `load_lookup_table` succeeds, the returned mapping sends
every key to the tag of the LAST row in file order whose
`(dstport, protocol.lower())` equals that key — later duplicate rows
overwrite earlier ones, and earlier tags are not retained. -/
theorem lookup_last_write_wins (hdr : List String) (rows : List (List String))
    (m : PyDict (String × String) String)
    (h : load_lookup_table (hdr :: rows) = .ok m) (k : String × String) :
    m.get? k = lastTagFor rows k := by
  have h' : loadRows rows PyDict.empty = .ok m := h
  have hm := loadRows_get rows PyDict.empty m h' k
  simpa [PyDict.get?, PyDict.empty, assocFind] using hm

/-- Witness for C5: the key `(25, tcp)` appears twice (once with
protocol spelled `TCP`); the returned mapping holds the second tag
`sv_P2` and the first tag `sv_P1` is gone. -/
theorem lookup_last_write_wins_witness :
    load_lookup_table [["d", "p", "t"], ["25", "tcp", "sv_P1"], ["25", "TCP", "sv_P2"]]
      = .ok ⟨[(("25", "tcp"), "sv_P2")]⟩
    ∧ PyDict.get? ⟨[(("25", "tcp"), "sv_P2")]⟩ ("25", "tcp")
        = lastTagFor [["25", "tcp", "sv_P1"], ["25", "TCP", "sv_P2"]] ("25", "tcp")
    ∧ lastTagFor [["25", "tcp", "sv_P1"], ["25", "TCP", "sv_P2"]] ("25", "tcp")
        = some "sv_P2" :=
  ⟨rfl,
    lookup_last_write_wins ["d", "p", "t"] [["25", "tcp", "sv_P1"], ["25", "TCP", "sv_P2"]]
      ⟨[(("25", "tcp"), "sv_P2")]⟩ rfl ("25", "tcp"),
    rfl⟩

/-! ### Unmapped protocol numbers -/

theorem pyLower_empty : pyLower "" = "" := rfl

/-- C6: on a well-formed line whose protocol number `n` is absent from
`protocol_mapping`, the protocol name resolves to the empty string
rather than failing; the key becomes `(port, "")`, the record counts as
untagged when that key is absent from the lookup mapping, and the
port/protocol counts still gain one occurrence under `(port, "")`. -/
theorem unmapped_protocol_untagged (lookup : PyDict (String × String) String)
    (agg : FlowAggregates) (line : String) (n : Int)
    (hlen : 14 ≤ (pySplit line).length)
    (hn : pyInt? ((pySplit line).getD 7 "") = some n)
    (hproto : assocFind protocol_mapping n = none)
    (hkey : lookup.get? ((pySplit line).getD 6 "", "") = none) :
    processLine lookup agg line
      = .ok { agg with
          untagged_count := agg.untagged_count + 1,
          port_protocol_counts :=
            agg.port_protocol_counts.bump ((pySplit line).getD 6 "", "") } := by
  have h14 : ¬ (pySplit line).length < 14 := Nat.not_lt.mpr hlen
  simp only [processLine, h14, if_false, hn, hproto, Option.getD_none, pyLower_empty, hkey]

/-- Witness for C6: protocol number 999 is unmapped; the record with
destination port 53 lands under the key `(53, "")` and is untagged. -/
theorem unmapped_protocol_untagged_witness :
    14 ≤ (pySplit "0 1 2 3 4 5 53 999 8 9 10 11 12 13").length
    ∧ pyInt? ((pySplit "0 1 2 3 4 5 53 999 8 9 10 11 12 13").getD 7 "") = some 999
    ∧ assocFind protocol_mapping 999 = none
    ∧ PyDict.get? (PyDict.empty : PyDict (String × String) String)
        ((pySplit "0 1 2 3 4 5 53 999 8 9 10 11 12 13").getD 6 "", "") = none
    ∧ processLine PyDict.empty ⟨PyDict.empty, PyDict.empty, 0⟩
        "0 1 2 3 4 5 53 999 8 9 10 11 12 13"
        = .ok ⟨⟨[]⟩, ⟨[(("53", ""), 1)]⟩, 1⟩ := by
  refine ⟨by decide, by decide, by decide, rfl, ?_⟩
  have h := unmapped_protocol_untagged PyDict.empty ⟨PyDict.empty, PyDict.empty, 0⟩
    "0 1 2 3 4 5 53 999 8 9 10 11 12 13" 999 (by decide) (by decide) (by decide) rfl
  exact h.trans rfl

/-! ### Report structure -/

/-- The report laid out line by line, exactly as §4.4 of the spec draws
it: the tag section header lines, one `tag,count` line per tag in
insertion (first-seen) order, the `Untagged` line, one blank line, then
the port/protocol section header lines and one `port,protocol,count`
line per pair in insertion (first-seen) order. -/
def reportLines (tag_counts : PyDict String Nat)
    (port_protocol_counts : PyDict (String × String) Nat)
    (untagged_count : Nat) : List String :=
  ["Tag Counts:", "Tag,Count"]
  ++ tag_counts.entries.map (fun e => e.1 ++ "," ++ toString e.2)
  ++ ["Untagged," ++ toString untagged_count, ""]
  ++ ["Port/Protocol Combination Counts:", "Port,Protocol,Count"]
  ++ port_protocol_counts.entries.map (fun e => e.1.1 ++ "," ++ e.1.2 ++ "," ++ toString e.2)

/-- C8: the text `write_output` produces is exactly the spec's report
shape — every line of `reportLines`, each terminated by a newline, in
order, with the single blank line separating the two sections. -/
theorem write_output_structure (tag_counts : PyDict String Nat)
    (port_protocol_counts : PyDict (String × String) Nat) (untagged_count : Nat) :
    write_output tag_counts port_protocol_counts untagged_count
      = String.join ((reportLines tag_counts port_protocol_counts untagged_count).map
          (fun l => l ++ "\n")) := by
  have ext : ∀ a b : String, a.data = b.data → a = b := by
    intro a b hab
    cases a
    cases b
    exact congrArg String.mk hab
  have e1 : ("Tag Counts:\n" : String) = "Tag Counts:" ++ "\n" := rfl
  have e2 : ("Tag,Count\n" : String) = "Tag,Count" ++ "\n" := rfl
  have e3 : ("\n\n" : String) = "\n" ++ "\n" := rfl
  have e4 : ("Port/Protocol Combination Counts:\n" : String)
      = "Port/Protocol Combination Counts:" ++ "\n" := rfl
  have e5 : ("Port,Protocol,Count\n" : String) = "Port,Protocol,Count" ++ "\n" := rfl
  apply ext
  simp only [write_output, reportLines, e1, e2, e3, e4, e5]
  simp [String.data_append, List.map_append, List.flatten_append, List.map_map,
    Function.comp_def, List.append_assoc]

/-! ### Entry-point wiring -/

/-- C4: for every run of `main`, either both the loader and the
classifier succeed and the output path receives exactly the report
`write_output` builds from the aggregates (exit status 0), or the
process exits with status 1 and the output path keeps whatever content
it had before — `write_output` is never reached after a failure, so a
failing run never produces or alters an output file. -/
theorem output_written_only_after_success (lookupRows : List (List String))
    (logLines : List String) (existing : Option String) :
    (∃ lookup agg, load_lookup_table lookupRows = .ok lookup
        ∧ process_flow_logs logLines lookup = .ok agg
        ∧ mainRun lookupRows logLines existing
            = (some (write_output agg.tag_counts agg.port_protocol_counts agg.untagged_count), 0))
      ∨ mainRun lookupRows logLines existing = (existing, 1) := by
  rcases hload : load_lookup_table lookupRows with e | lookup
  · right
    simp [mainRun, runPipeline, hload]
  · rcases hproc : process_flow_logs logLines lookup with e | agg
    · right
      simp [mainRun, runPipeline, hload, hproc]
    · left
      exact ⟨lookup, agg, rfl, hproc, by simp [mainRun, runPipeline, hload, hproc]⟩

/-- C9: the pipeline is deterministic — equal lookup-file contents give
equal mappings, and equal inputs give byte-identical pipeline results
(in particular byte-identical reports on success); the embedding is a
pure function of the two file contents. -/
theorem pipeline_deterministic (rows rows' : List (List String))
    (lines lines' : List String) (hr : rows = rows') (hl : lines = lines') :
    load_lookup_table rows = load_lookup_table rows'
      ∧ runPipeline rows lines = runPipeline rows' lines' := by
  subst hr
  subst hl
  exact ⟨rfl, rfl⟩

/-- Witness for C9 at a concrete lookup file and log. -/
theorem pipeline_deterministic_witness :
    ([["h"], ["25", "tcp", "sv_P1"]] : List (List String)) = [["h"], ["25", "tcp", "sv_P1"]]
    ∧ (["0 1 2 3 4 5 25 6 8 9 10 11 12 13"] : List String)
        = ["0 1 2 3 4 5 25 6 8 9 10 11 12 13"]
    ∧ load_lookup_table [["h"], ["25", "tcp", "sv_P1"]]
        = load_lookup_table [["h"], ["25", "tcp", "sv_P1"]]
    ∧ runPipeline [["h"], ["25", "tcp", "sv_P1"]] ["0 1 2 3 4 5 25 6 8 9 10 11 12 13"]
        = runPipeline [["h"], ["25", "tcp", "sv_P1"]] ["0 1 2 3 4 5 25 6 8 9 10 11 12 13"] := by
  have h := pipeline_deterministic [["h"], ["25", "tcp", "sv_P1"]] [["h"], ["25", "tcp", "sv_P1"]]
    ["0 1 2 3 4 5 25 6 8 9 10 11 12 13"] ["0 1 2 3 4 5 25 6 8 9 10 11 12 13"] rfl rfl
  exact ⟨rfl, rfl, h.1, h.2⟩

/-- C10: a lookup file that exists but is completely empty (no rows at
all, not even a header) makes `load_lookup_table` fail — the attempt to
skip the header raises `StopIteration`, the broad handler catches it
and the process exits with status 1, leaving the output path untouched
— rather than returning an empty mapping. -/
theorem empty_lookup_file_exits (logLines : List String) (existing : Option String) :
    load_lookup_table [] = .error "StopIteration"
      ∧ mainRun [] logLines existing = (existing, 1) :=
  ⟨rfl, rfl⟩
